import Mathlib

/-!
Formal model of the IntegrityOS ingestion-and-classification pipeline.

The definitions below are a shallow embedding of the Python sources:
  - backend/app/services/import_service.py  (rule-based classifier, CSV import)
  - backend/app/core/ml_model.py            (MLModel singleton: predict, train)
  - backend/app/api/v1/import_csv.py        (file-kind detection)
  - backend/app/models/object.py, diagnostic.py, pipeline.py (data model)

Machine floats of the source are embedded as rationals; Python strings as
Lean strings with an explicit ASCII+Cyrillic case mapping; the fitted
scikit-learn estimators (whose parameters are training-data dependent) are
abstracted as oracle functions, while every control-flow decision around
them is translated from the source verbatim.
-/

namespace IntegrityOS

/-! String primitives (Python `str.lower`, `str.upper`, `in`, `strip`) -/

/-- Lowercase one character: ASCII A-Z and Cyrillic А-Я / Ё, as Python
`str.lower` acts on the alphabets appearing in this code base. -/
def lowerChar (c : Char) : Char :=
  if 0x41 ≤ c.toNat ∧ c.toNat ≤ 0x5A then Char.ofNat (c.toNat + 32)
  else if 0x410 ≤ c.toNat ∧ c.toNat ≤ 0x42F then Char.ofNat (c.toNat + 32)
  else if c.toNat = 0x401 then Char.ofNat 0x451
  else c

/-- Uppercase one character: ASCII a-z and Cyrillic а-я / ё. -/
def upperChar (c : Char) : Char :=
  if 0x61 ≤ c.toNat ∧ c.toNat ≤ 0x7A then Char.ofNat (c.toNat - 32)
  else if 0x430 ≤ c.toNat ∧ c.toNat ≤ 0x44F then Char.ofNat (c.toNat - 32)
  else if c.toNat = 0x451 then Char.ofNat 0x401
  else c

/-- Python `s.lower()`. -/
def strLower (s : String) : String := String.mk (s.data.map lowerChar)

/-- Python `s.upper()`. -/
def strUpper (s : String) : String := String.mk (s.data.map upperChar)

/-- Python `s.strip()`: remove leading and trailing whitespace. -/
def strStrip (s : String) : String :=
  String.mk (((s.data.dropWhile Char.isWhitespace).reverse.dropWhile
    Char.isWhitespace).reverse)

/-- Byte-order comparison of strings (the lexicographic order Python and
numpy use on the ASCII method codes fed to `LabelEncoder`). -/
def charListLe : List Char → List Char → Bool
  | [], _ => true
  | _ :: _, [] => false
  | x :: xs, y :: ys =>
    if x.toNat < y.toNat then true
    else if y.toNat < x.toNat then false
    else charListLe xs ys

/-- Byte-order comparison of whole strings. -/
def strLeB (a b : String) : Bool := charListLe a.data b.data

/-- Insert into a sorted list of strings. -/
def insertSorted (x : String) : List String → List String
  | [] => [x]
  | y :: ys => if strLeB x y then x :: y :: ys else y :: insertSorted x ys

/-- Sort a list of strings (insertion sort). -/
def sortStrings : List String → List String
  | [] => []
  | x :: xs => insertSorted x (sortStrings xs)

/-- Contiguous-sublist test on character lists. -/
def isSubstrOf (needle : List Char) : List Char → Bool
  | [] => needle.isEmpty
  | c :: cs => needle.isPrefixOf (c :: cs) || isSubstrOf needle cs

/-- Python `needle in hay` for strings (substring containment). -/
def strContains (hay needle : String) : Bool := isSubstrOf needle.data hay.data

/-- First-occurrence deduplication, as pandas `Series.unique`. -/
def uniqAux {α : Type} [DecidableEq α] (seen : List α) : List α → List α
  | [] => []
  | x :: xs => if x ∈ seen then uniqAux seen xs else x :: uniqAux (x :: seen) xs

/-- Deduplicate a list keeping the first occurrence of each element. -/
def uniqList {α : Type} [DecidableEq α] (xs : List α) : List α := uniqAux [] xs

/-! Criticality labels (models/diagnostic.py `MLLabel`) -/

/-- The three criticality labels of `MLLabel` in models/diagnostic.py. -/
inductive MLLabel where
  | normal
  | medium
  | high
deriving DecidableEq, Repr

/-- Severity rank of a label: `high > medium > normal`. -/
def MLLabel.sev : MLLabel → Nat
  | .normal => 0
  | .medium => 1
  | .high => 2

/-- More severe of two labels under `high > medium > normal`. -/
def MLLabel.sevMax (a b : MLLabel) : MLLabel :=
  if b.sev ≤ a.sev then a else b

/-! Rule-based classifier
(import_service.py `_determine_criticality_by_rules`, lines 18-89) -/

/-- Critical-severity keyword list (import_service.py lines 48-52). -/
def criticalKeywords : List String :=
  ["критический", "критично", "аварийный", "авария",
   "разрушение", "разрыв", "трещина сквозная", "сквозная",
   "глубокая коррозия", "сильная коррозия", "обширная"]

/-- Medium-severity keyword list (import_service.py lines 55-58). -/
def mediumKeywords : List String :=
  ["коррозия", "повреждение", "дефект", "трещина",
   "износ", "изношен", "поврежден"]

/-- Shallow embedding of `_determine_criticality_by_rules`
(import_service.py lines 18-89).  `param3` and `method` are accepted, as in
the source, but never read. -/
def determineCriticalityByRules (defect_found : Bool) (defect_description : String)
    (param1 param2 param3 : ℚ) (method : String) : MLLabel :=
  if defect_found = false then .normal
  else
    let desc_lower := strLower defect_description
    let is_critical := criticalKeywords.any (fun kw => strContains desc_lower kw)
    let is_medium := mediumKeywords.any (fun kw => strContains desc_lower kw)
    let param_criticality : MLLabel :=
      if 20 ≤ param1 ∨ 50 ≤ param2 then .high
      else if 10 ≤ param1 ∨ 20 ≤ param2 then .medium
      else .normal
    if is_critical = true ∨ param_criticality = .high then .high
    else if is_medium = true ∨ param_criticality = .medium then .medium
    else .normal

/-! Spec-side decompositions used to compare the source classifier against
the wording of spec §4.4 (keyword-derived vs parameter-derived outcome). -/

/-- Keyword-derived outcome as worded by the spec: critical keywords give
`high`, else medium keywords give `medium`, else `normal`. -/
def keywordLabel (defect_description : String) : MLLabel :=
  let desc_lower := strLower defect_description
  if criticalKeywords.any (fun kw => strContains desc_lower kw) then .high
  else if mediumKeywords.any (fun kw => strContains desc_lower kw) then .medium
  else .normal

/-- Parameter-derived outcome as worded by the spec: `param1 ≥ 20` or
`param2 ≥ 50` give `high`; else `param1 ≥ 10` or `param2 ≥ 20` give
`medium`; else `normal`. -/
def paramLabel (param1 param2 : ℚ) : MLLabel :=
  if 20 ≤ param1 ∨ 50 ≤ param2 then .high
  else if 10 ≤ param1 ∨ 20 ≤ param2 then .medium
  else .normal

/-! Criticality engine state and the MLModel operations
(core/ml_model.py, class `MLModel`) -/

/-- One record of the `ml_data` dictionaries assembled by the import service
(import_service.py lines 483-491): the raw fields handed to either
classification strategy. -/
structure FeatureRow where
  method : String
  param1 : ℚ
  param2 : ℚ
  param3 : ℚ
  defect_found : Bool
  defect_description : String
  object_year : Int
deriving DecidableEq, Repr

/-- Fitted parameters of the two steps of the scikit-learn `Pipeline`
(`preprocessor`, `classifier`); abstracted as opaque tokens because their
values are produced by library fitting code outside this repository.
`Pipeline.fit` fits the steps in order, mutating each in place. -/
structure PipelineState where
  pre : Nat
  clf : Nat
deriving DecidableEq, Repr

/-- Mutable singleton state of `MLModel` (ml_model.py lines 100-106):
the fitted `LabelEncoder` classes, the `Pipeline` parameters, the
`_is_trained` flag and the `_metrics` dictionary (abstracted token). -/
structure EngineState where
  methodEncoder : List String
  pipeline : PipelineState
  is_trained : Bool
  metrics : Nat
deriving DecidableEq, Repr

/-- Fit of `LabelEncoder` on a column: `classes_` are the sorted distinct
values. -/
def labelEncoderFit (xs : List String) : List String :=
  (sortStrings xs).dedup

/-- Encoder side effect of `MLModel.prepare_features` (ml_model.py lines
198-216): when the engine is not trained the method encoder is refit in
place on the incoming data; when trained the fitted encoder is reused
(unknown methods are mapped to its first class, with no mutation). -/
def prepareFeaturesEncoderUpdate (st : EngineState) (rows : List FeatureRow) : EngineState :=
  if st.is_trained then st
  else { st with methodEncoder := labelEncoderFit (rows.map (·.method)) }

/-- Failure injection point for a training run: the procedure either
completes, or raises while fitting the pipeline (inside
`self._pipeline.fit`), or raises during the evaluation phase
(test-set prediction, metric computation or cross-validation). -/
inductive FailPoint where
  | noFail
  | duringFit
  | duringEval
deriving DecidableEq, Repr

/-- Errors surfaced by the embedded ML operations. -/
inductive TrainError where
  | fitError
deriving DecidableEq, Repr

/-- Oracle for the scikit-learn fitting and scoring routines: what
parameters a fit of each pipeline step would produce on given data, and
what metrics the evaluation phase would compute. -/
structure FitOracle where
  fitPre : List FeatureRow → Nat
  fitClf : List FeatureRow → Nat
  evalMetrics : List FeatureRow → List MLLabel → Nat

/-- Shallow embedding of `MLModel.train` (ml_model.py lines 237-383) as a
state transition.  The source works by in-place mutation of the singleton:
`prepare_features` may refit the encoder (line 211), `self._pipeline.fit`
refits the pipeline steps in order (line 283), `self._is_trained = True`
is set immediately after the fit (line 284), `self._metrics = metrics` is
assigned only after the whole evaluation phase (line 325), and an
exception anywhere is re-raised (line 380) with no state restoration.
A failure inside `Pipeline.fit` leaves the already-fitted preprocessor
step behind; a failure during evaluation leaves the fully refit pipeline
and the raised `_is_trained` flag behind. -/
def MLModel.train (o : FitOracle) (fail : FailPoint) (st : EngineState)
    (rows : List FeatureRow) (labels : List MLLabel) :
    EngineState × Except TrainError Nat :=
  let st1 := prepareFeaturesEncoderUpdate st rows
  match fail with
  | .duringFit =>
      ({ st1 with pipeline := { pre := o.fitPre rows, clf := st1.pipeline.clf } },
       .error .fitError)
  | .duringEval =>
      ({ st1 with
           pipeline := { pre := o.fitPre rows, clf := o.fitClf rows },
           is_trained := true },
       .error .fitError)
  | .noFail =>
      let m := o.evalMetrics rows labels
      ({ st1 with
           pipeline := { pre := o.fitPre rows, clf := o.fitClf rows },
           is_trained := true,
           metrics := m },
       .ok m)

/-- Oracle for `self._pipeline.predict` on prepared features: the fitted
model's per-batch predictions, a function of the fitted state and the
incoming rows. -/
def PredictOracle : Type := EngineState → List FeatureRow → List MLLabel

/-- Shallow embedding of `MLModel.predict` (ml_model.py lines 385-414).
When `_is_trained` is false the source returns the default label
`"normal"` for every input row; otherwise it predicts through the fitted
pipeline. -/
def MLModel.predict (oracle : PredictOracle) (st : EngineState)
    (rows : List FeatureRow) : List MLLabel :=
  if st.is_trained = false then List.replicate rows.length .normal
  else oracle st rows

/-- Shallow embedding of `MLModel.predict_proba` (ml_model.py lines
416-423).  When `_is_trained` is false the source returns the uniform
3-way distribution for every row. -/
def MLModel.predictProba (oracle : EngineState → List FeatureRow → List (ℚ × ℚ × ℚ))
    (st : EngineState) (rows : List FeatureRow) : List (ℚ × ℚ × ℚ) :=
  if st.is_trained = false then List.replicate rows.length (1/3, 1/3, 1/3)
  else oracle st rows

/-- Classification dispatch of the import service (import_service.py lines
493-518): the trained model is consulted only when `ml_model.is_trained`;
otherwise every row is labeled by `_determine_criticality_by_rules`. -/
def classifyPredictions (oracle : PredictOracle) (ml : EngineState)
    (mlData : List FeatureRow) : List MLLabel :=
  if ml.is_trained then MLModel.predict oracle ml mlData
  else mlData.map (fun d =>
    determineCriticalityByRules d.defect_found d.defect_description
      d.param1 d.param2 d.param3 d.method)

/-! File-kind detection (api/v1/import_csv.py `_detect_file_type`,
lines 86-120) -/

/-- Detected kind of a tabular source. -/
inductive FileKind where
  | objects
  | diagnostics
deriving DecidableEq, Repr

/-- Key column names for Objects (import_csv.py line 99). -/
def objectsKeywords : List String :=
  ["object_id", "object_name", "object_type", "lat", "lon", "pipeline_id"]

/-- Key column names for Diagnostics (import_csv.py line 103). -/
def diagnosticsKeywords : List String :=
  ["diag_id", "method", "defect_found", "defect_description", "param1", "param2"]

/-- Match count of a keyword vocabulary against lowercased column names:
a keyword scores when it occurs as a substring of some column. -/
def kindScore (keywords : List String) (columnsLower : List String) : Nat :=
  keywords.countP (fun kw => columnsLower.any (fun col => strContains col kw))

/-- Shallow embedding of `_detect_file_type` (import_csv.py lines 86-120).
Returns `none` where the source raises `ValueError`. -/
def detectFileType (columns : List String) : Option FileKind :=
  let columnsLower := columns.map strLower
  let objectsScore := kindScore objectsKeywords columnsLower
  let diagnosticsScore := kindScore diagnosticsKeywords columnsLower
  if 3 ≤ objectsScore ∧ diagnosticsScore < objectsScore then some .objects
  else if 3 ≤ diagnosticsScore then some .diagnostics
  else if columnsLower.any (fun col => strContains col "lat" || strContains col "lon") then
    some .objects
  else if columnsLower.any (fun col => strContains col "diag" || strContains col "method") then
    some .diagnostics
  else none

/-! Persistent data model
(models/object.py, models/diagnostic.py, models/pipeline.py) -/

/-- Object types (models/object.py `ObjectType`). -/
inductive ObjectType where
  | crane
  | compressor
  | pipeline_section
deriving DecidableEq, Repr

/-- Location-confidence states (models/object.py `LocationStatus`).
The source comments define them: `pending` means coordinates are not set,
`verified` means coordinates are set and checked. -/
inductive LocationStatus where
  | pending
  | verified
  | needs_update
deriving DecidableEq, Repr

/-- Quality grades (models/diagnostic.py `QualityGrade`). -/
inductive QualityGrade where
  | udovletvoritelno
  | dopustimo
  | trebuet_mer
  | nedopustimo
deriving DecidableEq, Repr

/-- A persisted `Object` row (models/object.py lines 26-46).  The route is
recorded by its unique name, standing for the `pipeline_id` foreign key;
`object_id` is the unique caller-supplied external identifier. -/
structure DBObject where
  object_id : Int
  object_name : String
  object_type : ObjectType
  pipeline_name : String
  lat : Option ℚ
  lon : Option ℚ
  location_status : LocationStatus
  year : Option Int
  material : Option String
deriving DecidableEq, Repr

/-- A persisted `Diagnostic` row (models/diagnostic.py lines 44-66).  The
owning asset is recorded by its external `object_id` (unique in the
registry, so it determines the internal key the source stores). -/
structure DBDiag where
  diag_id : Int
  object_ref : Int
  method : String
  date : Int
  temperature : Option ℚ
  humidity : Option ℚ
  illumination : Option ℚ
  defect_found : Bool
  defect_description : Option String
  quality_grade : Option QualityGrade
  param1 : Option ℚ
  param2 : Option ℚ
  param3 : Option ℚ
  ml_label : Option MLLabel
  source_file : String
deriving DecidableEq, Repr

/-- The relational store: route names (`pipelines` table), the asset
registry (`objects` table) and the event store (`diagnostics` table). -/
structure DB where
  pipelines : List String
  objects : List DBObject
  diagnostics : List DBDiag
deriving DecidableEq, Repr

/-! Parsed CSV rows
(the typed values import_service.py extracts from each DataFrame row;
`none` in a conversion field records that the conversion raises) -/

/-- One row of the Objects source.  `object_id`, `lat`, `lon` are `none`
when the `int(...)` / `float(...)` conversion of the raw cell raises;
`year` and `material` are `none` when the cell is missing. -/
structure ObjRow where
  object_id : Option Int
  object_name : String
  object_type : String
  pipeline_id : String
  lat : Option ℚ
  lon : Option ℚ
  year : Option Int
  material : Option String
deriving DecidableEq, Repr

/-- One row of the Diagnostics source.  `diag_id` and `object_id` are
`none` when `int(...)` raises; `date` is `none` when `pd.to_datetime`
raises (a parsed date is abstracted as its ordinal day number); optional
readings and parameters are `none` when missing. -/
structure DiagRow where
  diag_id : Option Int
  object_id : Option Int
  method : String
  date : Option Int
  temperature : Option ℚ
  humidity : Option ℚ
  illumination : Option ℚ
  defect_found : Bool
  defect_description : Option String
  quality_grade : Option String
  param1 : Option ℚ
  param2 : Option ℚ
  param3 : Option ℚ
deriving DecidableEq, Repr

/-! The import transaction
(import_service.py `import_data_from_csv`, lines 174-595) -/

/-- Soft per-row errors collected by the import (the Russian message
strings of the source are abstracted to their cause and row index). -/
inductive ImpError where
  | objConversion (idx : Nat)
  | pipelineNotFound (idx : Nat) (name : String)
  | invalidObjectType (idx : Nat) (t : String)
  | objRowFailure (idx : Nat)
  | diagConversion (idx : Nat)
  | diagObjectNotFound (idx : Nat) (objId : Int)
  | invalidMethod (idx : Nat) (m : String)
  | diagRowFailure (idx : Nat)
deriving DecidableEq, Repr

/-- Fatal errors that abort the whole import and roll the transaction
back. -/
inductive FatalError where
  | nameErrorUniquePipelines
  | integrityError
deriving DecidableEq, Repr

/-- Batch counters returned by `import_data_from_csv` on success
(import_service.py lines 575-585). -/
structure ImportStats where
  pipelines_imported : Nat
  objects_imported : Nat
  objects_auto_created : Nat
  objects_skipped : Nat
  diagnostics_imported : Nat
  diagnostics_skipped : Nat
  ml_predictions_made : Nat
  errors : List ImpError
deriving DecidableEq, Repr

/-- Equality of embedded call results is decidable. -/
instance {ε α : Type} [DecidableEq ε] [DecidableEq α] : DecidableEq (Except ε α) := fun a b =>
  match a, b with
  | .ok x, .ok y => if h : x = y then isTrue (by rw [h]) else isFalse (by simp [h])
  | .error x, .error y => if h : x = y then isTrue (by rw [h]) else isFalse (by simp [h])
  | .ok _, .error _ => isFalse (by simp)
  | .error _, .ok _ => isFalse (by simp)

/-- Result of an import call: the database after commit (or rollback) and
either the stats dictionary or the fatal error. -/
structure ImportOutcome where
  db : DB
  result : Except FatalError ImportStats
deriving DecidableEq, Repr

/-- Generated display name of an auto-created asset
(import_service.py line 250). -/
def autoName (i : Int) : String := "Объект-" ++ toString i

/-- Auto-creation of minimal assets from the Diagnostics source when no
Objects source is supplied (import_service.py lines 214-267): distinct
referenced identifiers absent from the registry become PENDING assets with
no coordinates under the sentinel route AUTO-CREATED. -/
def autoCreateObjects (db0 : DB) (clear_existing : Bool) (diagRows : List DiagRow) :
    DB × Nat :=
  let uniqueIds := uniqList (diagRows.filterMap (·.object_id))
  let existing : List Int := if clear_existing then [] else db0.objects.map (·.object_id)
  let db1 :=
    if "AUTO-CREATED" ∈ db0.pipelines then db0
    else { db0 with pipelines := db0.pipelines ++ ["AUTO-CREATED"] }
  let newObjs := (uniqueIds.filter (fun i => decide (i ∉ existing))).map (fun i =>
    { object_id := i, object_name := autoName i, object_type := .pipeline_section,
      pipeline_name := "AUTO-CREATED", lat := none, lon := none,
      location_status := .pending, year := none,
      material := none : DBObject })
  ({ db1 with objects := db1.objects ++ newObjs }, newObjs.length)

/-- Keys of `pipeline_map` (import_service.py lines 282-295): every route
name of the Objects source, stripped, empty names skipped.  The map always
resolves each of its keys (to the existing or the freshly created route),
so only the key list matters for lookups. -/
def pipelineKeys (names : List String) : List String :=
  names.filterMap (fun n => if strStrip n = "" then none else some (strStrip n))

/-- Database effect of the `pipeline_map` loop (import_service.py lines
282-295): each stripped nonempty route name absent from the `pipelines`
table is created; matching is exact and case-sensitive. -/
def buildPipelineDb (db : DB) : List String → DB
  | [] => db
  | n :: rest =>
      let n' := strStrip n
      if n' = "" then buildPipelineDb db rest
      else if n' ∈ db.pipelines then buildPipelineDb db rest
      else buildPipelineDb { db with pipelines := db.pipelines ++ [n'] } rest

/-- Parse of the `object_type` cell after lowercasing
(import_service.py lines 324-332). -/
def parseObjectType (s : String) : Option ObjectType :=
  if s = "crane" then some .crane
  else if s = "compressor" then some .compressor
  else if s = "pipeline_section" then some .pipeline_section
  else none

/-- Outcome of one Objects row inside the import loop. -/
inductive ObjRowOutcome where
  | skip
  | err (e : ImpError)
  | add (o : DBObject)
deriving DecidableEq, Repr

/-- One iteration of the Objects import loop (import_service.py lines
309-341).  Checks run in source order: `int(object_id)` conversion,
duplicate skip, route lookup, `object_type` validation, coordinate
conversion.  The constructed `Object` carries no `location_status`
argument, so the column default `pending` of models/object.py line 38
applies at insert. -/
def processObjRow (clear_existing : Bool) (existing : List Int) (pmap : List String)
    (idx : Nat) (row : ObjRow) : ObjRowOutcome :=
  match row.object_id with
  | none => .err (.objConversion idx)
  | some objId =>
    if clear_existing = false ∧ objId ∈ existing then .skip
    else
      let pname := strStrip row.pipeline_id
      if pname ∈ pmap then
        match parseObjectType (strLower row.object_type) with
        | none => .err (.invalidObjectType idx row.object_type)
        | some t =>
          match row.lat, row.lon with
          | some la, some lo =>
              .add { object_id := objId, object_name := row.object_name,
                     object_type := t, pipeline_name := pname,
                     lat := some la, lon := some lo,
                     location_status := .pending,
                     year := row.year, material := row.material }
          | _, _ => .err (.objRowFailure idx)
      else .err (.pipelineNotFound idx pname)

/-- Accumulated result of the Objects import loop. -/
structure ObjPhase where
  objects : List DBObject
  skipped : Nat
  errors : List ImpError
deriving DecidableEq, Repr

/-- The Objects import loop (import_service.py lines 308-341), indexed as
`enumerate` does. -/
def processObjRows (clear_existing : Bool) (existing : List Int) (pmap : List String) :
    Nat → List ObjRow → ObjPhase
  | _, [] => { objects := [], skipped := 0, errors := [] }
  | idx, row :: rest =>
    let r := processObjRows clear_existing existing pmap (idx + 1) rest
    match processObjRow clear_existing existing pmap idx row with
    | .skip => { r with skipped := r.skipped + 1 }
    | .err e => { r with errors := e :: r.errors }
    | .add o => { r with objects := o :: r.objects }

/-- Valid diagnostic methods (import_service.py line 421). -/
def validMethods : List String :=
  ["VIK", "PVK", "MPK", "UZK", "RGK", "TVK", "VIBRO", "MFL", "TFI", "GEO",
   "UTWM", "UT", "EC"]

/-- Parse of the `quality_grade` cell (import_service.py lines 440-450):
strip, lowercase, look up in the fixed table; anything else is `None`. -/
def parseQualityGrade (q : Option String) : Option QualityGrade :=
  match q with
  | none => none
  | some s =>
    let s' := strLower (strStrip s)
    if s' = "удовлетворительно" then some .udovletvoritelno
    else if s' = "допустимо" then some .dopustimo
    else if s' = "требует_мер" then some .trebuet_mer
    else if s' = "недопустимо" then some .nedopustimo
    else none

/-- Entry of `diagnostics_for_ml` (import_service.py lines 430-437): the
row index, its diag identifier, the raw row, the validated uppercase
method and the owning object's year when the year map has it. -/
structure MlEntry where
  index : Nat
  diagId : Int
  row : DiagRow
  method : String
  object_year : Option Int
deriving DecidableEq, Repr

/-- Outcome of one Diagnostics row inside the import loop. -/
inductive DiagRowOutcome where
  | skip
  | err (e : ImpError)
  | add (d : DBDiag) (e : MlEntry)
deriving DecidableEq, Repr

/-- One iteration of the Diagnostics import loop (import_service.py lines
403-471), checks in source order: `int(diag_id)` conversion, duplicate
skip, `int(object_id)` conversion, registry resolution, method
validation, date parse; then the row joins `diagnostics_for_ml` and the
`Diagnostic` is constructed with `ml_label = None`. -/
def processDiagRow (clear_existing : Bool) (existingDiag : List Int) (mapIds : List Int)
    (yearOf : Int → Option Int) (srcName : String) (idx : Nat) (row : DiagRow) :
    DiagRowOutcome :=
  match row.diag_id with
  | none => .err (.diagConversion idx)
  | some diagId =>
    if clear_existing = false ∧ diagId ∈ existingDiag then .skip
    else
      match row.object_id with
      | none => .err (.diagRowFailure idx)
      | some objId =>
        if objId ∈ mapIds then
          let method := strUpper row.method
          if method ∈ validMethods then
            match row.date with
            | none => .err (.diagRowFailure idx)
            | some date =>
              .add
                { diag_id := diagId, object_ref := objId, method := method,
                  date := date, temperature := row.temperature,
                  humidity := row.humidity, illumination := row.illumination,
                  defect_found := row.defect_found,
                  defect_description := row.defect_description,
                  quality_grade := parseQualityGrade row.quality_grade,
                  param1 := row.param1, param2 := row.param2, param3 := row.param3,
                  ml_label := none, source_file := srcName }
                { index := idx, diagId := diagId, row := row, method := method,
                  object_year := yearOf objId }
          else .err (.invalidMethod idx row.method)
        else .err (.diagObjectNotFound idx objId)

/-- Accumulated result of the Diagnostics import loop. -/
structure DiagPhase where
  diags : List DBDiag
  forMl : List MlEntry
  skipped : Nat
  errors : List ImpError
deriving DecidableEq, Repr

/-- The Diagnostics import loop (import_service.py lines 403-471). -/
def processDiagRows (clear_existing : Bool) (existingDiag : List Int) (mapIds : List Int)
    (yearOf : Int → Option Int) (srcName : String) :
    Nat → List DiagRow → DiagPhase
  | _, [] => { diags := [], forMl := [], skipped := 0, errors := [] }
  | idx, row :: rest =>
    let r := processDiagRows clear_existing existingDiag mapIds yearOf srcName (idx + 1) rest
    match processDiagRow clear_existing existingDiag mapIds yearOf srcName idx row with
    | .skip => { r with skipped := r.skipped + 1 }
    | .err e => { r with errors := e :: r.errors }
    | .add d e => { r with diags := d :: r.diags, forMl := e :: r.forMl }

/-- Assembly of one `ml_data` record from a `diagnostics_for_ml` entry
(import_service.py lines 483-491): missing numeric parameters default to
0, the description is lowercased (empty when missing), a missing object
year defaults to 2000. -/
def mkFeatureRow (e : MlEntry) : FeatureRow :=
  { method := e.method,
    param1 := e.row.param1.getD 0,
    param2 := e.row.param2.getD 0,
    param3 := e.row.param3.getD 0,
    defect_found := e.row.defect_found,
    defect_description := (e.row.defect_description.map strLower).getD "",
    object_year := e.object_year.getD 2000 }

/-! The stages of `import_data_from_csv` on the main (Objects source
present and nonempty) path, as named functions of their inputs.  `db`
here is the working database already cleared when `clear_existing` was
requested. -/

/-- The `unique_pipelines` value (import_service.py line 280). -/
def importNames (objRows : List ObjRow) : List String :=
  uniqList (objRows.map (·.pipeline_id))

/-- The set `existing_object_ids` (import_service.py lines 299-302). -/
def importEx (clear_existing : Bool) (db : DB) : List Int :=
  if clear_existing then [] else db.objects.map (·.object_id)

/-- The set `existing_diag_ids` (import_service.py lines 391-394). -/
def importExD (clear_existing : Bool) (db : DB) : List Int :=
  if clear_existing then [] else db.diagnostics.map (·.diag_id)

/-- The database after the `pipeline_map` loop (import_service.py lines
276-295). -/
def importDb3 (db : DB) (objRows : List ObjRow) : DB :=
  buildPipelineDb db (importNames objRows)

/-- The Objects loop result (import_service.py lines 304-341). -/
def importOp (clear_existing : Bool) (db : DB) (objRows : List ObjRow) : ObjPhase :=
  processObjRows clear_existing (importEx clear_existing db)
    (pipelineKeys (importNames objRows)) 0 objRows

/-- The database after the Objects flush (import_service.py lines
347-350). -/
def importDb4 (clear_existing : Bool) (db : DB) (objRows : List ObjRow) : DB :=
  { importDb3 db objRows with
      objects := (importDb3 db objRows).objects
        ++ (importOp clear_existing db objRows).objects }

/-- The set `all_csv_object_ids` (import_service.py lines 352-374): the
convertible identifiers of the Objects source plus, when not clearing,
the pre-existing registry identifiers. -/
def importAllCsvIds (clear_existing : Bool) (db : DB) (objRows : List ObjRow) :
    List Int :=
  objRows.filterMap (·.object_id) ++ importEx clear_existing db

/-- The `db_objects` query result (import_service.py lines 376-380). -/
def importDbObjects (clear_existing : Bool) (db : DB) (objRows : List ObjRow) :
    List DBObject :=
  (importDb4 clear_existing db objRows).objects.filter
    (fun o => decide (o.object_id ∈ importAllCsvIds clear_existing db objRows))

/-- The keys of `object_id_map` (import_service.py lines 378-380). -/
def importMapIds (clear_existing : Bool) (db : DB) (objRows : List ObjRow) :
    List Int :=
  (importDbObjects clear_existing db objRows).map (·.object_id)

/-- The `object_year_map` lookup (import_service.py line 397): only
objects with a truthy year participate. -/
def importYearOf (clear_existing : Bool) (db : DB) (objRows : List ObjRow) :
    Int → Option Int := fun i =>
  (((importDbObjects clear_existing db objRows).filter (fun o =>
      match o.year with | some y => decide (y ≠ 0) | none => false)).find?
    (fun o => decide (o.object_id = i))).bind (·.year)

/-- The Diagnostics loop result (import_service.py lines 399-471). -/
def importDl (clear_existing : Bool) (db : DB) (diagRows : List DiagRow)
    (objRows : List ObjRow) (src : String) : DiagPhase :=
  processDiagRows clear_existing (importExD clear_existing db)
    (importMapIds clear_existing db objRows)
    (importYearOf clear_existing db objRows) src 0 diagRows

/-- The `diag_id -> ml_label` assignment pairs (import_service.py lines
474-531): `diagnostics_for_ml` entries zipped with the active strategy's
predictions. -/
def importPredPairs (oracle : PredictOracle) (ml : EngineState)
    (clear_existing : Bool) (db : DB) (diagRows : List DiagRow)
    (objRows : List ObjRow) (src : String) : List (Int × MLLabel) :=
  ((importDl clear_existing db diagRows objRows src).forMl.zip
    (classifyPredictions oracle ml
      ((importDl clear_existing db diagRows objRows src).forMl.map mkFeatureRow))).map
    (fun p => (p.1.diagId, p.2))

/-- Label overwrite of one staged Diagnostic (import_service.py lines
534-537). -/
def labelWith (pairs : List (Int × MLLabel)) (d : DBDiag) : DBDiag :=
  match pairs.find? (fun q => decide (q.1 = d.diag_id)) with
  | some q => { d with ml_label := some q.2 }
  | none => d

/-- The staged Diagnostics with their assigned labels (import_service.py
lines 525-537). -/
def importDiagsLabeled (oracle : PredictOracle) (ml : EngineState)
    (clear_existing : Bool) (db : DB) (diagRows : List DiagRow)
    (objRows : List ObjRow) (src : String) : List DBDiag :=
  (importDl clear_existing db diagRows objRows src).diags.map
    (labelWith (importPredPairs oracle ml clear_existing db diagRows objRows src))

/-- The committed database (import_service.py lines 539-546). -/
def importDb5 (oracle : PredictOracle) (ml : EngineState) (clear_existing : Bool)
    (db : DB) (diagRows : List DiagRow) (objRows : List ObjRow) (src : String) :
    DB :=
  { importDb4 clear_existing db objRows with
      diagnostics := (importDb4 clear_existing db objRows).diagnostics
        ++ importDiagsLabeled oracle ml clear_existing db diagRows objRows src }

/-- One identifier of a batch of rows inserted together collides with an
earlier one. -/
def hasDupIds : List Int → Bool
  | [] => false
  | x :: xs => xs.contains x || hasDupIds xs

/-- The storage layer's unique-key check on an insert batch: some new row
collides with another new row or with an already stored one. -/
def hasInsertConflict (existingIds newIds : List Int) : Bool :=
  hasDupIds newIds || newIds.any (fun i => existingIds.contains i)

/-- IntegrityError condition of the Objects flush (import_service.py line
350): `objects.object_id` is unique (models/object.py line 31), so the
flush raises when a staged object's identifier collides with another
staged one or with a stored row. -/
def importObjConflict (clear_existing : Bool) (db : DB) (objRows : List ObjRow) :
    Bool :=
  hasInsertConflict (db.objects.map (·.object_id))
    ((importOp clear_existing db objRows).objects.map (·.object_id))

/-- IntegrityError condition of the commit (import_service.py line 546):
`diag_id` is the primary key (models/diagnostic.py line 48), so the commit
raises when a staged event's identifier collides with another staged one
or with a stored row. -/
def importDiagConflict (oracle : PredictOracle) (ml : EngineState)
    (clear_existing : Bool) (db : DB) (diagRows : List DiagRow)
    (objRows : List ObjRow) (src : String) : Bool :=
  hasInsertConflict (db.diagnostics.map (·.diag_id))
    ((importDiagsLabeled oracle ml clear_existing db diagRows objRows src).map
      (·.diag_id))

/-- The main import path (Objects source present and nonempty), composed
of the stages above, with the stats dictionary of import_service.py lines
575-585.  A unique-key violation at the Objects flush (line 350) or at
the commit (line 546) raises IntegrityError, which the handler at line
587 turns into a failure (the caller rolls the store back). -/
def importMain (oracle : PredictOracle) (ml : EngineState) (db : DB)
    (diagRows : List DiagRow) (objRows : List ObjRow) (src : String)
    (clear_existing : Bool) : ImportOutcome :=
  if importObjConflict clear_existing db objRows then
    { db := db, result := .error .integrityError }
  else if importDiagConflict oracle ml clear_existing db diagRows objRows src then
    { db := db, result := .error .integrityError }
  else
  { db := importDb5 oracle ml clear_existing db diagRows objRows src,
    result := .ok {
      pipelines_imported := (uniqList (pipelineKeys (importNames objRows))).length,
      objects_imported := (importOp clear_existing db objRows).objects.length,
      objects_auto_created := 0,
      objects_skipped := (importOp clear_existing db objRows).skipped,
      diagnostics_imported :=
        (importDiagsLabeled oracle ml clear_existing db diagRows objRows src).length,
      diagnostics_skipped := (importDl clear_existing db diagRows objRows src).skipped,
      ml_predictions_made :=
        (importPredPairs oracle ml clear_existing db diagRows objRows src).length,
      errors := (importOp clear_existing db objRows).errors
        ++ (importDl clear_existing db diagRows objRows src).errors } }

/-- Rollback of import_service.py lines 587-595: a fatal error inside the
transaction restores the pre-transaction store and surfaces the error. -/
def rollbackOn (db : DB) (r : ImportOutcome) : ImportOutcome :=
  match r.result with
  | .error e => { db := db, result := .error e }
  | .ok _ => r

/-- Shallow embedding of `import_data_from_csv` (import_service.py lines
174-595) as a transaction on `DB`.  All writes happen on a working copy;
a fatal error returns the original database (the rollback of line 589).
The post-commit automatic training attempt (lines 549-557) touches only
the engine state, never the three tables, and is not part of the
transaction result. -/
def importDataFromCsv (oracle : PredictOracle) (ml : EngineState) (db : DB)
    (diagRows : List DiagRow) (objRowsOpt : Option (List ObjRow))
    (diagSrcName : String) (clear_existing : Bool) : ImportOutcome :=
  let db0 : DB := if clear_existing then { pipelines := [], objects := [], diagnostics := [] } else db
  match objRowsOpt with
  | none =>
      -- the assets staged by auto-creation (import_service.py lines
      -- 214-267) never survive: the substituted objects frame is empty, so
      -- the guard at line 279 leaves `unique_pipelines` unassigned and the
      -- loop at line 282 raises NameError; the handler at line 587 rolls
      -- the transaction back and reports failure.
      let _staged := autoCreateObjects db0 clear_existing diagRows
      { db := db, result := .error .nameErrorUniquePipelines }
  | some objRows =>
    if objRows.isEmpty then
      -- an empty Objects frame leaves `unique_pipelines` unassigned too
      { db := db, result := .error .nameErrorUniquePipelines }
    else
      rollbackOn db
        (importMain oracle ml db0 diagRows objRows diagSrcName clear_existing)

/-- Importability of one Objects row relative to the `pipeline_map` keys:
the checks of the Objects loop besides the duplicate skip. -/
def objRowImportable (pmap : List String) (row : ObjRow) : Prop :=
  row.object_id.isSome ∧ strStrip row.pipeline_id ∈ pmap ∧
  (parseObjectType (strLower row.object_type)).isSome ∧
  row.lat.isSome ∧ row.lon.isSome

/-- Importability of one Diagnostics row relative to the resolvable
object identifiers: the checks of the Diagnostics loop besides the
duplicate skip. -/
def diagRowImportable (mapIds : List Int) (row : DiagRow) : Prop :=
  row.diag_id.isSome ∧ (∃ o, row.object_id = some o ∧ o ∈ mapIds) ∧
  strUpper row.method ∈ validMethods ∧ row.date.isSome

/-! Concrete fixtures used by witnesses and counterexamples -/

/-- An empty store. -/
def dbEmpty : DB := { pipelines := [], objects := [], diagnostics := [] }

/-- A store holding one route and nothing else. -/
def dbMT : DB := { pipelines := ["MT-01"], objects := [], diagnostics := [] }

/-- An untrained engine state (fresh `MLModel`). -/
def mlUntrained : EngineState :=
  { methodEncoder := [], pipeline := { pre := 0, clf := 0 }, is_trained := false,
    metrics := 0 }

/-- A trained engine state with distinguishable fitted tokens. -/
def mlTrained : EngineState :=
  { methodEncoder := ["VIK"], pipeline := { pre := 1, clf := 2 }, is_trained := true,
    metrics := 5 }

/-- A fitted pipeline that predicts `high` for every row. -/
def oracleConstHigh : PredictOracle := fun _ rows => rows.map (fun _ => MLLabel.high)

/-- A probability oracle fixture. -/
def oracleProbaConst : EngineState → List FeatureRow → List (ℚ × ℚ × ℚ) :=
  fun _ rows => rows.map (fun _ => ((1 : ℚ), (0 : ℚ), (0 : ℚ)))

/-- Fitting oracle with distinguishable outputs. -/
def fitOracle0 : FitOracle :=
  { fitPre := fun _ => 10, fitClf := fun _ => 20, evalMetrics := fun _ _ => 99 }

/-- One feature row. -/
def featRow0 : FeatureRow :=
  { method := "VIK", param1 := 0, param2 := 0, param3 := 0, defect_found := false,
    defect_description := "", object_year := 2000 }

/-- Objects row of the spec scenario: `id=1, lat=10, lon=20`. -/
def objRow1 : ObjRow :=
  { object_id := some 1, object_name := "Station", object_type := "crane",
    pipeline_id := "MT-01", lat := some 10, lon := some 20, year := none,
    material := none }

/-- Objects row referencing a route absent from `dbMT`. -/
def objRowNew : ObjRow :=
  { object_id := some 2, object_name := "Crane-2", object_type := "crane",
    pipeline_id := "NEWROUTE", lat := some 1, lon := some 2, year := none,
    material := none }

/-- Diagnostics row of the spec scenario: `id=1, object=1,
defect_found=false`. -/
def diagRow1 : DiagRow :=
  { diag_id := some 1, object_id := some 1, method := "VIK", date := some 738000,
    temperature := none, humidity := none, illumination := none,
    defect_found := false, defect_description := none, quality_grade := none,
    param1 := none, param2 := none, param3 := none }

/-- Diagnostics row referencing the unknown asset `id=7` (spec scenario of
the auto-creation path). -/
def diagRow7 : DiagRow :=
  { diag_id := some 1, object_id := some 7, method := "VIK", date := some 738000,
    temperature := none, humidity := none, illumination := none,
    defect_found := true, defect_description := some "коррозия", quality_grade := none,
    param1 := some 5, param2 := some 5, param3 := none }

/-! Helper lemmas -/

/-- Names already in the route table survive the `pipeline_map` loop. -/
theorem buildPipelineDb_mono (names : List String) :
    ∀ (db : DB) (p : String), p ∈ db.pipelines →
      p ∈ (buildPipelineDb db names).pipelines := by
  induction names with
  | nil => intro db p h; exact h
  | cons a rest ih =>
    intro db p h
    simp only [buildPipelineDb]
    by_cases h1 : strStrip a = ""
    · rw [if_pos h1]; exact ih db p h
    · rw [if_neg h1]
      by_cases h2 : strStrip a ∈ db.pipelines
      · rw [if_pos h2]; exact ih db p h
      · rw [if_neg h2]; exact ih _ p (List.mem_append_left _ h)

/-- Every stripped nonempty route name of the source ends up in the route
table after the `pipeline_map` loop. -/
theorem mem_buildPipelineDb (names : List String) :
    ∀ (db : DB) (n : String), n ∈ names → strStrip n ≠ "" →
      strStrip n ∈ (buildPipelineDb db names).pipelines := by
  induction names with
  | nil => intro db n h _; cases h
  | cons a rest ih =>
    intro db n hn hne
    simp only [buildPipelineDb]
    rcases List.mem_cons.mp hn with h | h
    · subst h
      rw [if_neg hne]
      by_cases h2 : strStrip n ∈ db.pipelines
      · rw [if_pos h2]; exact buildPipelineDb_mono rest db _ h2
      · rw [if_neg h2]
        exact buildPipelineDb_mono rest _ _
          (List.mem_append_right _ (List.mem_singleton.mpr rfl))
    · by_cases h1 : strStrip a = ""
      · rw [if_pos h1]; exact ih db n h hne
      · rw [if_neg h1]
        by_cases h2 : strStrip a ∈ db.pipelines
        · rw [if_pos h2]; exact ih db n h hne
        · rw [if_neg h2]; exact ih _ n h hne

/-- Stripped nonempty source names are keys of `pipeline_map`. -/
theorem mem_pipelineKeys {names : List String} {n : String} (hn : n ∈ names)
    (hne : strStrip n ≠ "") : strStrip n ∈ pipelineKeys names := by
  simp only [pipelineKeys, List.mem_filterMap]
  exact ⟨n, hn, by rw [if_neg hne]⟩

/-- The empty name is never a key of `pipeline_map`. -/
theorem ne_empty_of_mem_pipelineKeys {names : List String} {s : String}
    (h : s ∈ pipelineKeys names) : s ≠ "" := by
  simp only [pipelineKeys, List.mem_filterMap] at h
  obtain ⟨n, _, h2⟩ := h
  by_cases hne : strStrip n = ""
  · rw [if_pos hne] at h2; cases h2
  · rw [if_neg hne] at h2
    injection h2 with h3
    rw [← h3]; exact hne


/-- The `pipeline_map` loop writes only the route table. -/
theorem buildPipelineDb_objects (names : List String) :
    ∀ db : DB, (buildPipelineDb db names).objects = db.objects := by
  induction names with
  | nil => intro db; rfl
  | cons a rest ih =>
    intro db
    simp only [buildPipelineDb]
    split_ifs <;> simp [ih]

/-- The `pipeline_map` loop writes only the route table. -/
theorem buildPipelineDb_diagnostics (names : List String) :
    ∀ db : DB, (buildPipelineDb db names).diagnostics = db.diagnostics := by
  induction names with
  | nil => intro db; rfl
  | cons a rest ih =>
    intro db
    simp only [buildPipelineDb]
    split_ifs <;> simp [ih]

/-- When every source route name is already present (or empty), the
`pipeline_map` loop is the identity on the database. -/
theorem buildPipelineDb_fix (names : List String) :
    ∀ db : DB, (∀ n ∈ names, strStrip n = "" ∨ strStrip n ∈ db.pipelines) →
      buildPipelineDb db names = db := by
  induction names with
  | nil => intro db _; rfl
  | cons a rest ih =>
    intro db h
    have hrest : ∀ n ∈ rest, strStrip n = "" ∨ strStrip n ∈ db.pipelines :=
      fun n hn => h n (List.mem_cons_of_mem _ hn)
    simp only [buildPipelineDb]
    rcases h a (List.mem_cons_self a rest) with ha | ha
    · rw [if_pos ha]; exact ih db hrest
    · by_cases h1 : strStrip a = ""
      · rw [if_pos h1]; exact ih db hrest
      · rw [if_neg h1, if_pos ha]; exact ih db hrest

/-- Label assignment does not change the event identifier. -/
theorem labelWith_diag_id (pairs : List (Int × MLLabel)) (d : DBDiag) :
    (labelWith pairs d).diag_id = d.diag_id := by
  unfold labelWith
  cases pairs.find? (fun q => decide (q.1 = d.diag_id)) <;> rfl

/-- Identifiers of a staged Diagnostics list survive label assignment. -/
theorem map_labelWith_diag_id (pairs : List (Int × MLLabel)) (ds : List DBDiag) :
    (ds.map (labelWith pairs)).map (fun d => d.diag_id)
      = ds.map (fun d => d.diag_id) := by
  induction ds with
  | nil => rfl
  | cons d rest ih => simp [labelWith_diag_id, ih]

/-- Inversion of a successful Objects-loop iteration: the added object
carries the row identifier, the row passes every validation, and (under
skip-existing) the identifier was not among the existing ones. -/
theorem processObjRow_add_inv {ce : Bool} {ex : List Int} {pmap : List String}
    {idx : Nat} {row : ObjRow} {o : DBObject}
    (h : processObjRow ce ex pmap idx row = .add o) :
    row.object_id = some o.object_id ∧ objRowImportable pmap row ∧
      (ce = false → o.object_id ∉ ex) := by
  unfold processObjRow at h
  cases hid : row.object_id with
  | none => simp [hid] at h
  | some objId =>
    simp only [hid] at h
    by_cases hc : (ce = false ∧ objId ∈ ex)
    · rw [if_pos hc] at h; simp at h
    · rw [if_neg hc] at h
      by_cases hp : strStrip row.pipeline_id ∈ pmap
      · rw [if_pos hp] at h
        cases hpt : parseObjectType (strLower row.object_type) with
        | none => simp [hpt] at h
        | some t =>
          simp only [hpt] at h
          cases hl : row.lat with
          | none => simp [hl] at h
          | some la =>
            simp only [hl] at h
            cases hlo : row.lon with
            | none => simp [hlo] at h
            | some lo =>
              simp only [hlo] at h
              injection h with h2
              subst h2
              refine ⟨?_, ⟨?_, hp, ?_, ?_, ?_⟩, ?_⟩
              · rfl
              · rw [hid]; rfl
              · rw [hpt]; rfl
              · rw [hl]; rfl
              · rw [hlo]; rfl
              · intro hce hmem
                exact hc ⟨hce, hmem⟩
      · rw [if_neg hp] at h; simp at h

/-- A row passing every validation whose identifier is not among the
existing ones is added by the Objects loop, carrying that identifier. -/
theorem processObjRow_importable_add (ex : List Int) (pmap : List String)
    (idx : Nat) (row : ObjRow) (objId : Int)
    (himp : objRowImportable pmap row) (hid : row.object_id = some objId)
    (hnx : objId ∉ ex) :
    ∃ o, processObjRow false ex pmap idx row = .add o ∧ o.object_id = objId := by
  obtain ⟨_, hp, hpt, hl, hlo⟩ := himp
  obtain ⟨t, hpt⟩ := Option.isSome_iff_exists.mp hpt
  obtain ⟨la, hl⟩ := Option.isSome_iff_exists.mp hl
  obtain ⟨lo, hlo⟩ := Option.isSome_iff_exists.mp hlo
  unfold processObjRow
  simp only [hid]
  rw [if_neg (fun hcon => hnx hcon.2), if_pos hp]
  simp only [hpt, hl, hlo]
  exact ⟨_, rfl, rfl⟩


/-- Under skip-existing, the Objects loop adds nothing when every
fully-valid row identifier is already among the existing ones. -/
theorem processObjRows_objects_nil {ex : List Int} {pmap : List String}
    (rows : List ObjRow) :
    ∀ idx, (∀ row ∈ rows, ∀ objId : Int, row.object_id = some objId →
        objRowImportable pmap row → objId ∈ ex) →
    (processObjRows false ex pmap idx rows).objects = [] := by
  induction rows with
  | nil => intro idx _; rfl
  | cons r rest ih =>
    intro idx h
    have hrest : ∀ row ∈ rest, ∀ objId : Int, row.object_id = some objId →
        objRowImportable pmap row → objId ∈ ex :=
      fun row hm => h row (List.mem_cons_of_mem _ hm)
    have hnadd : ∀ o : DBObject, processObjRow false ex pmap idx r ≠ .add o := by
      intro o hadd
      obtain ⟨hid, himp, hnx⟩ := processObjRow_add_inv hadd
      exact (hnx rfl) (h r (List.mem_cons_self r rest) o.object_id hid himp)
    cases hout : processObjRow false ex pmap idx r with
    | skip => simp only [processObjRows, hout]; exact ih (idx + 1) hrest
    | err e => simp only [processObjRows, hout]; exact ih (idx + 1) hrest
    | add o => exact absurd hout (hnadd o)

/-- Under skip-existing, a fully-valid row whose identifier is not among
the existing ones contributes its identifier to the imported objects. -/
theorem processObjRows_mem_add {ex : List Int} {pmap : List String}
    {row : ObjRow} {objId : Int}
    (himp : objRowImportable pmap row) (hid : row.object_id = some objId)
    (hnx : objId ∉ ex) :
    ∀ rows : List ObjRow, row ∈ rows → ∀ idx,
      objId ∈ (processObjRows false ex pmap idx rows).objects.map
        (fun o => o.object_id) := by
  intro rows
  induction rows with
  | nil => intro hm; cases hm
  | cons r rest ih =>
    intro hm idx
    rcases List.mem_cons.mp hm with he | hm2
    · subst he
      obtain ⟨o, hout, hoid⟩ := processObjRow_importable_add ex pmap idx row objId himp hid hnx
      simp only [processObjRows, hout, List.map_cons]
      simp [hoid]
    · cases hout : processObjRow false ex pmap idx r with
      | skip => simp only [processObjRows, hout]; exact ih hm2 (idx + 1)
      | err e => simp only [processObjRows, hout]; exact ih hm2 (idx + 1)
      | add o =>
        simp only [processObjRows, hout, List.map_cons]
        exact List.mem_cons_of_mem _ (ih hm2 (idx + 1))

/-- Every object produced by the Objects loop carries an identifier
converted from some source row. -/
theorem processObjRows_ids_sub {ce : Bool} {ex : List Int} {pmap : List String} :
    ∀ (rows : List ObjRow) (idx : Nat) (o : DBObject),
      o ∈ (processObjRows ce ex pmap idx rows).objects →
      o.object_id ∈ rows.filterMap (fun r => r.object_id) := by
  intro rows
  induction rows with
  | nil => intro idx o h; cases h
  | cons r rest ih =>
    intro idx o h
    have hsub : ∀ x : Int, x ∈ rest.filterMap (fun r => r.object_id) →
        x ∈ (r :: rest).filterMap (fun r => r.object_id) := by
      intro x hx
      rcases List.mem_filterMap.mp hx with ⟨a, ha, hfa⟩
      exact List.mem_filterMap.mpr ⟨a, List.mem_cons_of_mem _ ha, hfa⟩
    cases hout : processObjRow ce ex pmap idx r with
    | skip =>
      simp only [processObjRows, hout] at h
      exact hsub _ (ih (idx + 1) o h)
    | err e =>
      simp only [processObjRows, hout] at h
      exact hsub _ (ih (idx + 1) o h)
    | add o2 =>
      simp only [processObjRows, hout] at h
      rcases List.mem_cons.mp h with he | hm
      · subst he
        obtain ⟨hid, _, _⟩ := processObjRow_add_inv hout
        exact List.mem_filterMap.mpr ⟨r, List.mem_cons_self r rest, hid⟩
      · exact hsub _ (ih (idx + 1) o hm)

/-- Inversion of a successful Diagnostics-loop iteration. -/
theorem processDiagRow_add_inv {ce : Bool} {exD mapIds : List Int}
    {yearOf : Int → Option Int} {src : String} {idx : Nat} {row : DiagRow}
    {d : DBDiag} {e : MlEntry}
    (h : processDiagRow ce exD mapIds yearOf src idx row = .add d e) :
    row.diag_id = some d.diag_id ∧ diagRowImportable mapIds row ∧
      (ce = false → d.diag_id ∉ exD) := by
  unfold processDiagRow at h
  cases hid : row.diag_id with
  | none => simp [hid] at h
  | some diagId =>
    simp only [hid] at h
    by_cases hc : (ce = false ∧ diagId ∈ exD)
    · rw [if_pos hc] at h; simp at h
    · rw [if_neg hc] at h
      cases hobj : row.object_id with
      | none => simp [hobj] at h
      | some objId =>
        simp only [hobj] at h
        by_cases hm : objId ∈ mapIds
        · rw [if_pos hm] at h
          by_cases hv : strUpper row.method ∈ validMethods
          · rw [if_pos hv] at h
            cases hdt : row.date with
            | none => simp [hdt] at h
            | some dt =>
              simp only [hdt] at h
              injection h with h1 h2
              subst h1
              refine ⟨rfl, ⟨?_, ⟨objId, hobj, hm⟩, hv, ?_⟩, ?_⟩
              · rw [hid]; rfl
              · rw [hdt]; rfl
              · intro hce hmem
                exact hc ⟨hce, hmem⟩
          · rw [if_neg hv] at h; simp at h
        · rw [if_neg hm] at h; simp at h

/-- A fully-valid Diagnostics row with a fresh identifier is added by the
Diagnostics loop, carrying that identifier. -/
theorem processDiagRow_importable_add (exD mapIds : List Int)
    (yearOf : Int → Option Int) (src : String) (idx : Nat) (row : DiagRow)
    (diagId : Int)
    (himp : diagRowImportable mapIds row) (hid : row.diag_id = some diagId)
    (hnx : diagId ∉ exD) :
    ∃ d e, processDiagRow false exD mapIds yearOf src idx row = .add d e ∧
      d.diag_id = diagId := by
  obtain ⟨_, ⟨objId, hobj, hm⟩, hv, hdt⟩ := himp
  obtain ⟨dt, hdt⟩ := Option.isSome_iff_exists.mp hdt
  unfold processDiagRow
  simp only [hid]
  rw [if_neg (fun hcon => hnx hcon.2)]
  simp only [hobj]
  rw [if_pos hm, if_pos hv]
  simp only [hdt]
  exact ⟨_, _, rfl, rfl⟩

/-- Under skip-existing, the Diagnostics loop adds nothing when every
fully-valid row identifier is already among the existing ones. -/
theorem processDiagRows_nil {exD mapIds : List Int}
    {yearOf : Int → Option Int} {src : String} (diagRows : List DiagRow) :
    ∀ idx, (∀ row ∈ diagRows, ∀ d : Int, row.diag_id = some d →
        diagRowImportable mapIds row → d ∈ exD) →
    (processDiagRows false exD mapIds yearOf src idx diagRows).diags = [] ∧
    (processDiagRows false exD mapIds yearOf src idx diagRows).forMl = [] := by
  induction diagRows with
  | nil => intro idx _; exact ⟨rfl, rfl⟩
  | cons r rest ih =>
    intro idx h
    have hrest : ∀ row ∈ rest, ∀ d : Int, row.diag_id = some d →
        diagRowImportable mapIds row → d ∈ exD :=
      fun row hm => h row (List.mem_cons_of_mem _ hm)
    have hnadd : ∀ (d : DBDiag) (e : MlEntry),
        processDiagRow false exD mapIds yearOf src idx r ≠ .add d e := by
      intro d e hadd
      obtain ⟨hid, himp, hnx⟩ := processDiagRow_add_inv hadd
      exact (hnx rfl) (h r (List.mem_cons_self r rest) d.diag_id hid himp)
    cases hout : processDiagRow false exD mapIds yearOf src idx r with
    | skip => simp only [processDiagRows, hout]; exact ih (idx + 1) hrest
    | err e => simp only [processDiagRows, hout]; exact ih (idx + 1) hrest
    | add d e => exact absurd hout (hnadd d e)

/-- Under skip-existing, a fully-valid Diagnostics row with a fresh
identifier contributes its identifier to the imported events. -/
theorem processDiagRows_mem_add {exD mapIds : List Int}
    {yearOf : Int → Option Int} {src : String} {row : DiagRow} {diagId : Int}
    (himp : diagRowImportable mapIds row) (hid : row.diag_id = some diagId)
    (hnx : diagId ∉ exD) :
    ∀ diagRows : List DiagRow, row ∈ diagRows → ∀ idx,
      diagId ∈ (processDiagRows false exD mapIds yearOf src idx diagRows).diags.map
        (fun d => d.diag_id) := by
  intro diagRows
  induction diagRows with
  | nil => intro hm; cases hm
  | cons r rest ih =>
    intro hm idx
    rcases List.mem_cons.mp hm with he | hm2
    · subst he
      obtain ⟨d, e, hout, hdid⟩ := processDiagRow_importable_add exD mapIds yearOf src idx row diagId himp hid hnx
      simp only [processDiagRows, hout, List.map_cons]
      simp [hdid]
    · cases hout : processDiagRow false exD mapIds yearOf src idx r with
      | skip => simp only [processDiagRows, hout]; exact ih hm2 (idx + 1)
      | err e => simp only [processDiagRows, hout]; exact ih hm2 (idx + 1)
      | add d e =>
        simp only [processDiagRows, hout, List.map_cons]
        exact List.mem_cons_of_mem _ (ih hm2 (idx + 1))


/-- Component-wise equality of stores. -/
theorem DB.ext2 (a b : DB) (h1 : a.pipelines = b.pipelines)
    (h2 : a.objects = b.objects) (h3 : a.diagnostics = b.diagnostics) : a = b := by
  cases a; cases b
  cases h1; cases h2; cases h3
  rfl

/-- Registry contents after the Objects flush. -/
theorem importDb4_objects (ce : Bool) (db : DB) (objRows : List ObjRow) :
    (importDb4 ce db objRows).objects
      = db.objects ++ (importOp ce db objRows).objects := by
  simp [importDb4, importDb3, buildPipelineDb_objects]

/-- Registry contents after commit. -/
theorem importDb5_objects (oracle : PredictOracle) (ml : EngineState) (ce : Bool)
    (db : DB) (diagRows : List DiagRow) (objRows : List ObjRow) (src : String) :
    (importDb5 oracle ml ce db diagRows objRows src).objects
      = db.objects ++ (importOp ce db objRows).objects := by
  simp only [importDb5]
  exact importDb4_objects ce db objRows

/-- Route table after commit. -/
theorem importDb5_pipelines (oracle : PredictOracle) (ml : EngineState) (ce : Bool)
    (db : DB) (diagRows : List DiagRow) (objRows : List ObjRow) (src : String) :
    (importDb5 oracle ml ce db diagRows objRows src).pipelines
      = (buildPipelineDb db (importNames objRows)).pipelines := rfl

/-- Event store after commit. -/
theorem importDb5_diagnostics (oracle : PredictOracle) (ml : EngineState) (ce : Bool)
    (db : DB) (diagRows : List DiagRow) (objRows : List ObjRow) (src : String) :
    (importDb5 oracle ml ce db diagRows objRows src).diagnostics
      = db.diagnostics
        ++ importDiagsLabeled oracle ml ce db diagRows objRows src := by
  simp [importDb5, importDb4, importDb3, buildPipelineDb_diagnostics]

/-- Re-running the `pipeline_map` loop on a committed store changes
nothing: every route name of the source is already present. -/
theorem importDb3_second_run (oracle : PredictOracle) (ml : EngineState) (db : DB)
    (diagRows : List DiagRow) (objRows : List ObjRow) (src : String) :
    importDb3 (importDb5 oracle ml false db diagRows objRows src) objRows
      = importDb5 oracle ml false db diagRows objRows src := by
  unfold importDb3
  apply buildPipelineDb_fix
  intro n hn
  by_cases hne : strStrip n = ""
  · exact Or.inl hne
  · exact Or.inr (mem_buildPipelineDb (importNames objRows) db n hn hne)

/-- The skip-existing duplicate set of the second run: the first run's
registry identifiers. -/
theorem importEx_second_run (oracle : PredictOracle) (ml : EngineState) (db : DB)
    (diagRows : List DiagRow) (objRows : List ObjRow) (src : String) :
    importEx false (importDb5 oracle ml false db diagRows objRows src)
      = importEx false db
        ++ (importOp false db objRows).objects.map (fun o => o.object_id) := by
  simp [importEx, importDb5_objects]

/-- The second run's Objects loop imports nothing: every fully-valid row
identifier is already in the registry after the first run. -/
theorem importOp_second_run_nil (oracle : PredictOracle) (ml : EngineState)
    (db : DB) (diagRows : List DiagRow) (objRows : List ObjRow) (src : String) :
    (importOp false (importDb5 oracle ml false db diagRows objRows src)
        objRows).objects = [] := by
  unfold importOp
  apply processObjRows_objects_nil
  intro row hm objId hid himp
  rw [importEx_second_run]
  by_cases hx : objId ∈ importEx false db
  · exact List.mem_append_left _ hx
  · exact List.mem_append_right _ (processObjRows_mem_add himp hid hx objRows hm 0)

/-- Re-running the Objects flush on a committed store changes nothing. -/
theorem importDb4_second_run (oracle : PredictOracle) (ml : EngineState) (db : DB)
    (diagRows : List DiagRow) (objRows : List ObjRow) (src : String) :
    importDb4 false (importDb5 oracle ml false db diagRows objRows src) objRows
      = importDb5 oracle ml false db diagRows objRows src := by
  unfold importDb4
  rw [importDb3_second_run, importOp_second_run_nil, List.append_nil]

/-- In the first run, every object of the Objects flush is resolvable
through `all_csv_object_ids`, so `object_id_map` covers the whole
registry. -/
theorem importMapIds_first_run (db : DB) (objRows : List ObjRow) :
    importMapIds false db objRows
      = (importDb4 false db objRows).objects.map (fun o => o.object_id) := by
  unfold importMapIds importDbObjects
  rw [List.filter_eq_self.mpr ?_]
  intro o ho
  apply decide_eq_true
  unfold importAllCsvIds
  rw [importDb4_objects] at ho
  rcases List.mem_append.mp ho with h | h
  · refine List.mem_append_right _ ?_
    simp only [importEx, if_neg]
    exact List.mem_map.mpr ⟨o, h, rfl⟩
  · exact List.mem_append_left _ (processObjRows_ids_sub objRows 0 o h)

/-- The second run's `object_id_map` keys coincide with the first
run's. -/
theorem importMapIds_second_run (oracle : PredictOracle) (ml : EngineState)
    (db : DB) (diagRows : List DiagRow) (objRows : List ObjRow) (src : String) :
    importMapIds false (importDb5 oracle ml false db diagRows objRows src) objRows
      = importMapIds false db objRows := by
  rw [importMapIds_first_run db objRows]
  unfold importMapIds importDbObjects
  rw [importDb4_second_run]
  rw [List.filter_eq_self.mpr ?_]
  · rw [importDb5_objects, importDb4_objects]
  · intro o ho
    apply decide_eq_true
    unfold importAllCsvIds
    refine List.mem_append_right _ ?_
    simp only [importEx, if_neg]
    exact List.mem_map.mpr ⟨o, ho, rfl⟩

/-- The skip-existing duplicate set of the second run's Diagnostics loop:
the first run's event identifiers. -/
theorem importExD_second_run (oracle : PredictOracle) (ml : EngineState) (db : DB)
    (diagRows : List DiagRow) (objRows : List ObjRow) (src : String) :
    importExD false (importDb5 oracle ml false db diagRows objRows src)
      = importExD false db
        ++ (importDl false db diagRows objRows src).diags.map
            (fun d => d.diag_id) := by
  simp [importExD, importDb5_diagnostics, List.map_append, importDiagsLabeled,
    map_labelWith_diag_id]
  intro a _
  exact labelWith_diag_id _ a

/-- The second run's Diagnostics loop imports nothing and stages nothing
for classification. -/
theorem importDl_second_run_nil (oracle : PredictOracle)
    (ml : EngineState) (db : DB) (diagRows : List DiagRow)
    (objRows : List ObjRow) (src src2 : String) :
    (importDl false (importDb5 oracle ml false db diagRows objRows src) diagRows
        objRows src2).diags = [] ∧
    (importDl false (importDb5 oracle ml false db diagRows objRows src) diagRows
        objRows src2).forMl = [] := by
  unfold importDl
  apply processDiagRows_nil
  intro row hm dId hid himp
  rw [importMapIds_second_run] at himp
  rw [importExD_second_run]
  by_cases hx : dId ∈ importExD false db
  · exact List.mem_append_left _ hx
  · exact List.mem_append_right _ (processDiagRows_mem_add himp hid hx diagRows hm 0)

/-- The second run assigns no labels: nothing is staged. -/
theorem importDiagsLabeled_second_run_nil (oracle oracle2 : PredictOracle)
    (ml ml2 : EngineState) (db : DB) (diagRows : List DiagRow)
    (objRows : List ObjRow) (src src2 : String) :
    importDiagsLabeled oracle2 ml2 false
        (importDb5 oracle ml false db diagRows objRows src) diagRows objRows src2
      = [] := by
  unfold importDiagsLabeled
  rw [(importDl_second_run_nil oracle ml db diagRows objRows src src2).1]
  rfl

/-- The second run commits the first run's store unchanged. -/
theorem importDb5_second_run (oracle oracle2 : PredictOracle)
    (ml ml2 : EngineState) (db : DB) (diagRows : List DiagRow)
    (objRows : List ObjRow) (src src2 : String) :
    importDb5 oracle2 ml2 false (importDb5 oracle ml false db diagRows objRows src)
        diagRows objRows src2
      = importDb5 oracle ml false db diagRows objRows src := by
  apply DB.ext2
  · rw [importDb5_pipelines]
    have h := importDb3_second_run oracle ml db diagRows objRows src
    unfold importDb3 at h
    rw [h]
  · rw [importDb5_objects, importOp_second_run_nil, List.append_nil]
  · rw [importDb5_diagnostics, importDiagsLabeled_second_run_nil, List.append_nil]

/-- Rollback preserves the result value. -/
theorem rollbackOn_result (db : DB) (r : ImportOutcome) :
    (rollbackOn db r).result = r.result := by
  cases hr : r.result <;> simp [rollbackOn, hr]

/-- A successful transaction is returned unchanged by the rollback
wrapper. -/
theorem rollbackOn_ok {r : ImportOutcome} {s : ImportStats} (db : DB)
    (h : r.result = .ok s) : rollbackOn db r = r := by
  simp [rollbackOn, h]

/-- When neither unique-key check fires, the main path commits and
returns the full stats dictionary. -/
theorem importMain_no_conflict {oracle : PredictOracle} {ml : EngineState}
    {db : DB} {diagRows : List DiagRow} {objRows : List ObjRow} {src : String}
    {ce : Bool}
    (c1 : importObjConflict ce db objRows = false)
    (c2 : importDiagConflict oracle ml ce db diagRows objRows src = false) :
    importMain oracle ml db diagRows objRows src ce
      = { db := importDb5 oracle ml ce db diagRows objRows src,
          result := .ok {
            pipelines_imported :=
              (uniqList (pipelineKeys (importNames objRows))).length,
            objects_imported := (importOp ce db objRows).objects.length,
            objects_auto_created := 0,
            objects_skipped := (importOp ce db objRows).skipped,
            diagnostics_imported :=
              (importDiagsLabeled oracle ml ce db diagRows objRows src).length,
            diagnostics_skipped := (importDl ce db diagRows objRows src).skipped,
            ml_predictions_made :=
              (importPredPairs oracle ml ce db diagRows objRows src).length,
            errors := (importOp ce db objRows).errors
              ++ (importDl ce db diagRows objRows src).errors } } := by
  simp [importMain, c1, c2]

/-- A successful main-path run passed both unique-key checks. -/
theorem importMain_ok_conflicts {oracle : PredictOracle} {ml : EngineState}
    {db : DB} {diagRows : List DiagRow} {objRows : List ObjRow} {src : String}
    {ce : Bool} {s : ImportStats}
    (h : (importMain oracle ml db diagRows objRows src ce).result = .ok s) :
    importObjConflict ce db objRows = false ∧
    importDiagConflict oracle ml ce db diagRows objRows src = false := by
  by_cases c1 : importObjConflict ce db objRows = true
  · simp [importMain, c1] at h
  · have c1f : importObjConflict ce db objRows = false := by simpa using c1
    by_cases c2 : importDiagConflict oracle ml ce db diagRows objRows src = true
    · simp [importMain, c1f, c2] at h
    · exact ⟨c1f, by simpa using c2⟩

/-- The second run stages no objects, so its Objects flush cannot violate
the unique key. -/
theorem importObjConflict_second_run (oracle : PredictOracle) (ml : EngineState)
    (db : DB) (diagRows : List DiagRow) (objRows : List ObjRow) (src : String) :
    importObjConflict false (importDb5 oracle ml false db diagRows objRows src)
      objRows = false := by
  unfold importObjConflict
  rw [importOp_second_run_nil]
  rfl

/-- The second run stages no events, so its commit cannot violate the
primary key. -/
theorem importDiagConflict_second_run (oracle oracle2 : PredictOracle)
    (ml ml2 : EngineState) (db : DB) (diagRows : List DiagRow)
    (objRows : List ObjRow) (src src2 : String) :
    importDiagConflict oracle2 ml2 false
        (importDb5 oracle ml false db diagRows objRows src) diagRows objRows src2
      = false := by
  unfold importDiagConflict
  rw [importDiagsLabeled_second_run_nil]
  rfl

/-! Claim C10 -/

/-- C10: the rule-based classifier's output is independent of the third
numeric parameter and of the inspection method — two inputs agreeing on
`defect_found`, `defect_description`, `param1`, `param2` get the same
label whatever their `param3` and `method`. -/
theorem C10_rules_ignore_param3_and_method (defect_found : Bool) (d : String)
    (p1 p2 p3 p3' : ℚ) (m m' : String) :
    determineCriticalityByRules defect_found d p1 p2 p3 m =
      determineCriticalityByRules defect_found d p1 p2 p3' m' := rfl

/-! Claim C3 -/

/-- C3 (amended): an event with `defect_found = false` is labeled `normal`
by the rule-based strategy, and the untrained default of `MLModel.predict`
also returns `normal`; the trained path applies no such guard (see the
counterexample), so the guarantee holds only for the rule-based
strategy. -/
theorem C3_defect_not_found_normal_rule_based :
    (∀ (d : String) (p1 p2 p3 : ℚ) (m : String),
        determineCriticalityByRules false d p1 p2 p3 m = .normal) ∧
    (∀ (oracle : PredictOracle) (st : EngineState) (rows : List FeatureRow),
        st.is_trained = false →
        MLModel.predict oracle st rows = List.replicate rows.length .normal) := by
  constructor
  · intro d p1 p2 p3 m
    rfl
  · intro oracle st rows h
    simp [MLModel.predict, h]

/-- Witness for C3: concrete applications discharging the hypothesis. -/
theorem C3_defect_not_found_normal_rule_based_witness :
    determineCriticalityByRules false "коррозия" 100 100 0 "VIK" = .normal ∧
    MLModel.predict oracleConstHigh mlUntrained [featRow0] = List.replicate 1 .normal :=
  ⟨C3_defect_not_found_normal_rule_based.1 "коррозия" 100 100 0 "VIK",
   C3_defect_not_found_normal_rule_based.2 oracleConstHigh mlUntrained [featRow0] rfl⟩

/-- Counterexample for C3 as stated: under the trained-classifier strategy
the import labels a `defect_found = false` event with whatever the fitted
pipeline predicts — here `high` — because `MLModel.predict` never
consults `defect_found`. -/
theorem C3_counterexample_trained_path_labels_high :
    diagRow1.defect_found = false ∧
    (importDataFromCsv oracleConstHigh mlTrained dbEmpty [diagRow1] (some [objRow1])
        "Diagnostics.csv" false).db.diagnostics.map (fun d => d.ml_label)
      = [some MLLabel.high] := ⟨rfl, rfl⟩

/-! Claim C1 -/

/-- C1 (amended): with no fit available `MLModel.predict` returns the
default label `normal` for every row and `MLModel.predict_proba` the
uniform distribution — a fabricated answer rather than an "untrained"
report; the import orchestrator independently checks `is_trained` and
falls back to the rule-based classifier, so the untrained default never
labels imported events. -/
theorem C1_untrained_predict_defaults :
    (∀ (oracle : PredictOracle) (st : EngineState) (rows : List FeatureRow),
        st.is_trained = false →
        MLModel.predict oracle st rows = List.replicate rows.length .normal) ∧
    (∀ (po : EngineState → List FeatureRow → List (ℚ × ℚ × ℚ)) (st : EngineState)
        (rows : List FeatureRow),
        st.is_trained = false →
        MLModel.predictProba po st rows
          = List.replicate rows.length (1/3, 1/3, 1/3)) ∧
    (∀ (oracle : PredictOracle) (ml : EngineState) (mlData : List FeatureRow),
        ml.is_trained = false →
        classifyPredictions oracle ml mlData = mlData.map (fun d =>
          determineCriticalityByRules d.defect_found d.defect_description d.param1
            d.param2 d.param3 d.method)) := by
  refine ⟨?_, ?_, ?_⟩
  · intro oracle st rows h
    simp [MLModel.predict, h]
  · intro po st rows h
    simp [MLModel.predictProba, h]
  · intro oracle ml mlData h
    simp [classifyPredictions, h]

/-- Witness for C1: concrete applications discharging the hypothesis. -/
theorem C1_untrained_predict_defaults_witness :
    MLModel.predict oracleConstHigh mlUntrained [featRow0] = List.replicate 1 .normal ∧
    MLModel.predictProba oracleProbaConst mlUntrained [featRow0]
      = List.replicate 1 (1/3, 1/3, 1/3) ∧
    classifyPredictions oracleConstHigh mlUntrained [featRow0] = [featRow0].map (fun d =>
      determineCriticalityByRules d.defect_found d.defect_description d.param1
        d.param2 d.param3 d.method) :=
  ⟨C1_untrained_predict_defaults.1 oracleConstHigh mlUntrained [featRow0] rfl,
   C1_untrained_predict_defaults.2.1 oracleProbaConst mlUntrained [featRow0] rfl,
   C1_untrained_predict_defaults.2.2 oracleConstHigh mlUntrained [featRow0] rfl⟩

/-- Counterexample for C1 as stated: an untrained engine asked to predict
does not report "untrained" — it fabricates the label `normal` and a
uniform probability row. -/
theorem C1_counterexample_untrained_predict_fabricates :
    mlUntrained.is_trained = false ∧
    MLModel.predict oracleConstHigh mlUntrained [featRow0] = [MLLabel.normal] ∧
    MLModel.predictProba oracleProbaConst mlUntrained [featRow0]
      = [(1/3, 1/3, 1/3)] := ⟨rfl, rfl, rfl⟩

/-! Claim C4 -/

/-- C4 (amended): a training run that fails is not all-or-nothing.  A
failure during evaluation leaves the newly fitted pipeline and the raised
`_is_trained` flag in place while `_metrics` keeps its old value; a
failure inside `Pipeline.fit` leaves the newly fitted preprocessor next to
the old classifier; and `prepare_features` refits the method encoder in
place (when previously untrained) before the fit even starts.  The
failure is re-raised to the caller in every case. -/
theorem C4_failed_training_leaves_mixed_state :
    (∀ (o : FitOracle) (st : EngineState) (rows : List FeatureRow)
        (labels : List MLLabel),
        (MLModel.train o .duringEval st rows labels).2 = .error .fitError ∧
        (MLModel.train o .duringEval st rows labels).1.pipeline
            = { pre := o.fitPre rows, clf := o.fitClf rows } ∧
        (MLModel.train o .duringEval st rows labels).1.is_trained = true ∧
        (MLModel.train o .duringEval st rows labels).1.metrics = st.metrics) ∧
    (∀ (o : FitOracle) (st : EngineState) (rows : List FeatureRow)
        (labels : List MLLabel),
        (MLModel.train o .duringFit st rows labels).2 = .error .fitError ∧
        (MLModel.train o .duringFit st rows labels).1.pipeline.pre = o.fitPre rows ∧
        (MLModel.train o .duringFit st rows labels).1.pipeline.clf = st.pipeline.clf ∧
        (MLModel.train o .duringFit st rows labels).1.is_trained = st.is_trained ∧
        (MLModel.train o .duringFit st rows labels).1.metrics = st.metrics) ∧
    (∀ (o : FitOracle) (st : EngineState) (rows : List FeatureRow)
        (labels : List MLLabel),
        st.is_trained = false →
        (MLModel.train o .duringFit st rows labels).1.methodEncoder
          = labelEncoderFit (rows.map (fun r => r.method))) := by
  refine ⟨?_, ?_, ?_⟩
  · intro o st rows labels
    by_cases h : st.is_trained <;>
      simp [MLModel.train, prepareFeaturesEncoderUpdate, h]
  · intro o st rows labels
    by_cases h : st.is_trained <;>
      simp [MLModel.train, prepareFeaturesEncoderUpdate, h]
  · intro o st rows labels h
    simp [MLModel.train, prepareFeaturesEncoderUpdate, h]

/-- Witness for C4: concrete application discharging the hypothesis of
the encoder clause. -/
theorem C4_failed_training_leaves_mixed_state_witness :
    (MLModel.train fitOracle0 .duringEval mlTrained [featRow0] [MLLabel.normal]).2
        = .error .fitError ∧
    (MLModel.train fitOracle0 .duringFit mlUntrained [featRow0] [MLLabel.normal]).1.methodEncoder
        = labelEncoderFit ([featRow0].map (fun r => r.method)) :=
  ⟨(C4_failed_training_leaves_mixed_state.1 fitOracle0 mlTrained [featRow0]
      [MLLabel.normal]).1,
   C4_failed_training_leaves_mixed_state.2.2 fitOracle0 mlUntrained [featRow0]
      [MLLabel.normal] rfl⟩

/-- Counterexample for C4 as stated: a concrete failed run (failure during
evaluation, then one during fit from an untrained state) leaves the engine
state changed — newly fitted classifier next to the stale metrics, and a
freshly refit encoder next to the old classifier. -/
theorem C4_counterexample_mixed_state_after_failure :
    (MLModel.train fitOracle0 .duringEval mlTrained [featRow0] [MLLabel.normal]).2
        = .error .fitError ∧
    (MLModel.train fitOracle0 .duringEval mlTrained [featRow0] [MLLabel.normal]).1
        ≠ mlTrained ∧
    (MLModel.train fitOracle0 .duringEval mlTrained [featRow0] [MLLabel.normal]).1.pipeline.clf
        = 20 ∧
    (MLModel.train fitOracle0 .duringEval mlTrained [featRow0] [MLLabel.normal]).1.metrics
        = mlTrained.metrics ∧
    mlUntrained.is_trained = false ∧
    (MLModel.train fitOracle0 .duringFit mlUntrained [featRow0] [MLLabel.normal]).1.methodEncoder
        ≠ mlUntrained.methodEncoder ∧
    (MLModel.train fitOracle0 .duringFit mlUntrained [featRow0] [MLLabel.normal]).1.pipeline.clf
        = mlUntrained.pipeline.clf := by
  refine ⟨rfl, by decide, rfl, rfl, rfl, by decide, rfl⟩

/-! Claim C2 -/

/-- C2: importing a batch with no Objects source never succeeds — the
`unique_pipelines` name is read outside the guard that assigns it
(import_service.py lines 279-282), so the run raises NameError, the
transaction (including every staged auto-created asset) is rolled back,
and the original store is returned with a failure.  This contradicts the
claimed auto-creation behaviour. -/
theorem C2_no_objects_source_always_fails (oracle : PredictOracle) (ml : EngineState)
    (db : DB) (diagRows : List DiagRow) (src : String) (clear_existing : Bool) :
    importDataFromCsv oracle ml db diagRows none src clear_existing
      = { db := db, result := .error .nameErrorUniquePipelines } := rfl

/-! Claim C5 -/

/-- C5: evaluation of the import at the spec scenario (one Asset `id=1,
lat=10, lon=20`, one event `id=1, object=1, defect_found=false`).  The run
succeeds and labels the event `normal`, but the stored Asset keeps
`location_status = pending` — the explicit import path never sets the
column, so the default of models/object.py line 38 applies even though
both coordinates are present.  This contradicts both halves of the claim
(a PENDING asset *with* coordinates, and no VERIFIED state). -/
theorem C5_explicit_import_with_coords_stays_pending :
    (importDataFromCsv oracleConstHigh mlUntrained dbEmpty [diagRow1] (some [objRow1])
        "Diagnostics.csv" false).db.objects.map
          (fun o => (o.object_id, o.lat, o.lon, o.location_status))
      = [(1, some 10, some 20, LocationStatus.pending)] ∧
    (importDataFromCsv oracleConstHigh mlUntrained dbEmpty [diagRow1] (some [objRow1])
        "Diagnostics.csv" false).db.diagnostics.map (fun d => d.ml_label)
      = [some MLLabel.normal] ∧
    (importDataFromCsv oracleConstHigh mlUntrained dbEmpty [diagRow1] (some [objRow1])
        "Diagnostics.csv" false).result
      = .ok { pipelines_imported := 1, objects_imported := 1,
              objects_auto_created := 0, objects_skipped := 0,
              diagnostics_imported := 1, diagnostics_skipped := 0,
              ml_predictions_made := 1, errors := [] } := ⟨rfl, rfl, rfl⟩

/-! Claim C6 -/

/-- C6 (amended): route names are matched exactly and case-sensitively,
but an unknown route referenced by an explicit Asset row is auto-created
by the `pipeline_map` phase rather than failing the row: every stripped
nonempty route name of the Objects source ends up in the `pipelines`
table (existing names are reused, absent ones created), and an Asset row
receives the route soft error only when its stripped route name is
empty. -/
theorem C6_routes_auto_created_not_errors :
    (∀ (db : DB) (names : List String) (n : String),
        n ∈ names → strStrip n ≠ "" →
        strStrip n ∈ (buildPipelineDb db names).pipelines) ∧
    (∀ (db : DB) (names : List String) (p : String),
        p ∈ db.pipelines → p ∈ (buildPipelineDb db names).pipelines) ∧
    (∀ (ce : Bool) (ex : List Int) (names : List String) (idx : Nat) (row : ObjRow)
        (objId : Int),
        row.object_id = some objId →
        ¬(ce = false ∧ objId ∈ ex) →
        row.pipeline_id ∈ names →
        (processObjRow ce ex (pipelineKeys names) idx row
            = .err (.pipelineNotFound idx (strStrip row.pipeline_id))
          ↔ strStrip row.pipeline_id = "")) := by
  refine ⟨?_, ?_, ?_⟩
  · intro db names n hn hne
    exact mem_buildPipelineDb names db n hn hne
  · intro db names p h
    exact buildPipelineDb_mono names db p h
  · intro ce ex names idx row objId hid hskip hmem
    simp only [processObjRow, hid]
    rw [if_neg hskip]
    by_cases hp : strStrip row.pipeline_id = ""
    · have hnotin : strStrip row.pipeline_id ∉ pipelineKeys names :=
        fun hc => (ne_empty_of_mem_pipelineKeys hc) hp
      rw [if_neg hnotin]
      simp [hp]
    · have hin : strStrip row.pipeline_id ∈ pipelineKeys names :=
        mem_pipelineKeys hmem hp
      rw [if_pos hin]
      cases hpt : parseObjectType (strLower row.object_type) <;>
        cases hl : row.lat <;> cases hlo : row.lon <;> simp [hp]

/-- Witness for C6: concrete applications discharging the hypotheses. -/
theorem C6_routes_auto_created_not_errors_witness :
    strStrip "NEWROUTE" ∈ (buildPipelineDb dbMT ["NEWROUTE"]).pipelines ∧
    (processObjRow false [] (pipelineKeys ["NEWROUTE"]) 0 objRowNew
        = .err (.pipelineNotFound 0 (strStrip objRowNew.pipeline_id))
      ↔ strStrip objRowNew.pipeline_id = "") :=
  ⟨C6_routes_auto_created_not_errors.1 dbMT ["NEWROUTE"] "NEWROUTE" (by decide) (by decide),
   C6_routes_auto_created_not_errors.2.2 false [] ["NEWROUTE"] 0 objRowNew 2 rfl
     (by decide) (by decide)⟩


/-- Counterexample for C6 as stated: importing an Asset row that
references the route NEWROUTE, absent from a registry holding only MT-01,
succeeds with no soft error — the route is auto-created and the Asset is
stored under it. -/
theorem C6_counterexample_unknown_route_auto_created :
    importDataFromCsv oracleConstHigh mlUntrained dbMT [] (some [objRowNew])
        "Diagnostics.csv" false
      = { db := { pipelines := ["MT-01", "NEWROUTE"],
                  objects := [{ object_id := 2, object_name := "Crane-2",
                                object_type := .crane, pipeline_name := "NEWROUTE",
                                lat := some 1, lon := some 2,
                                location_status := .pending, year := none,
                                material := none }],
                  diagnostics := [] },
          result := .ok { pipelines_imported := 1, objects_imported := 1,
                          objects_auto_created := 0, objects_skipped := 0,
                          diagnostics_imported := 0, diagnostics_skipped := 0,
                          ml_predictions_made := 0, errors := [] } } := rfl

/-! Claim C7 -/

/-- C7: for a defect-found event the rule-based label is the more severe
of the keyword-derived and parameter-derived outcomes under
`high > medium > normal`; the parameter outcome is `high` exactly when
`param1 ≥ 20` or `param2 ≥ 50` and `medium` exactly when (below those)
`param1 ≥ 10` or `param2 ≥ 20`; in particular `param1 = 25` with a
keyword-free description yields `high`. -/
theorem C7_defect_rules_severity_max :
    (∀ (d : String) (p1 p2 p3 : ℚ) (m : String),
        determineCriticalityByRules true d p1 p2 p3 m
          = MLLabel.sevMax (keywordLabel d) (paramLabel p1 p2)) ∧
    (∀ p1 p2 : ℚ, paramLabel p1 p2 = .high ↔ (20 ≤ p1 ∨ 50 ≤ p2)) ∧
    (∀ p1 p2 : ℚ, paramLabel p1 p2 = .medium
        ↔ (¬(20 ≤ p1 ∨ 50 ≤ p2) ∧ (10 ≤ p1 ∨ 20 ≤ p2))) ∧
    determineCriticalityByRules true "" 25 0 0 "VIK" = .high := by
  refine ⟨?_, ?_, ?_, by decide⟩
  · intro d p1 p2 p3 m
    by_cases h1 : (criticalKeywords.any (fun kw => strContains (strLower d) kw)) = true <;>
      by_cases h2 : (mediumKeywords.any (fun kw => strContains (strLower d) kw)) = true <;>
      by_cases h3 : (20 ≤ p1 ∨ 50 ≤ p2) <;>
      by_cases h4 : (10 ≤ p1 ∨ 20 ≤ p2) <;>
      simp [determineCriticalityByRules, keywordLabel, paramLabel, MLLabel.sevMax,
        MLLabel.sev, h1, h2, h3, h4]
  · intro p1 p2
    by_cases h3 : (20 ≤ p1 ∨ 50 ≤ p2) <;> by_cases h4 : (10 ≤ p1 ∨ 20 ≤ p2) <;>
      simp [paramLabel, h3, h4]
  · intro p1 p2
    by_cases h3 : (20 ≤ p1 ∨ 50 ≤ p2) <;> by_cases h4 : (10 ≤ p1 ∨ 20 ≤ p2) <;>
      simp [paramLabel, h3, h4]

/-! Claim C8 -/

/-- C8 (amended): detection selects `objects` when the objects score
clears the floor of 3 and strictly dominates, else `diagnostics` when its
score clears the floor; but when neither applies the source does not
always fail — it falls back to secondary heuristics (any column
containing `lat`/`lon` gives `objects`, else any containing
`diag`/`method` gives `diagnostics`) and raises only when those fail
too. -/
theorem C8_detection_fallback_characterization :
    (∀ cols : List String,
        3 ≤ kindScore objectsKeywords (cols.map strLower) →
        kindScore diagnosticsKeywords (cols.map strLower)
            < kindScore objectsKeywords (cols.map strLower) →
        detectFileType cols = some .objects) ∧
    (∀ cols : List String,
        3 ≤ kindScore diagnosticsKeywords (cols.map strLower) →
        (kindScore objectsKeywords (cols.map strLower) < 3 ∨
          kindScore objectsKeywords (cols.map strLower)
            ≤ kindScore diagnosticsKeywords (cols.map strLower)) →
        detectFileType cols = some .diagnostics) ∧
    (∀ cols : List String,
        detectFileType cols = none ↔
          (¬(3 ≤ kindScore objectsKeywords (cols.map strLower) ∧
              kindScore diagnosticsKeywords (cols.map strLower)
                < kindScore objectsKeywords (cols.map strLower)) ∧
            kindScore diagnosticsKeywords (cols.map strLower) < 3 ∧
            (cols.map strLower).any
              (fun col => strContains col "lat" || strContains col "lon") = false ∧
            (cols.map strLower).any
              (fun col => strContains col "diag" || strContains col "method") = false)) := by
  refine ⟨?_, ?_, ?_⟩
  · intro cols h1 h2
    simp only [detectFileType]
    rw [if_pos ⟨h1, h2⟩]
  · intro cols h1 h2
    simp only [detectFileType]
    have hneg : ¬(3 ≤ kindScore objectsKeywords (cols.map strLower) ∧
        kindScore diagnosticsKeywords (cols.map strLower)
          < kindScore objectsKeywords (cols.map strLower)) := by
      intro hc
      rcases h2 with h | h <;> omega
    rw [if_neg hneg, if_pos h1]
  · intro cols
    simp only [detectFileType]
    split_ifs with h1 h2 h3 h4
    · simp [h1]
    · exact iff_of_false (by simp) (fun hc => absurd hc.2.1 (by omega))
    · refine iff_of_false (by simp) (fun hc => ?_)
      rw [hc.2.2.1] at h3
      exact Bool.noConfusion h3
    · refine iff_of_false (by simp) (fun hc => ?_)
      rw [hc.2.2.2] at h4
      exact Bool.noConfusion h4
    · exact iff_of_true rfl ⟨h1, by omega, by simpa using h3, by simpa using h4⟩

/-- Witness for C8: concrete applications discharging the hypotheses. -/
theorem C8_detection_fallback_characterization_witness :
    detectFileType ["object_id", "object_name", "object_type"] = some .objects ∧
    detectFileType ["diag_id", "method", "param1"] = some .diagnostics :=
  ⟨C8_detection_fallback_characterization.1 ["object_id", "object_name", "object_type"]
      (by decide) (by decide),
   C8_detection_fallback_characterization.2.1 ["diag_id", "method", "param1"]
      (by decide) (by decide)⟩

/-- Counterexample for C8 as stated: with columns `lat` and `method`
neither vocabulary clears the floor of 3 and neither dominates (both
scores are 1), yet detection selects `objects` through the fallback
heuristic instead of failing. -/
theorem C8_counterexample_fallback_selects_without_floor :
    detectFileType ["lat", "method"] = some .objects ∧
    kindScore objectsKeywords (["lat", "method"].map strLower) = 1 ∧
    kindScore diagnosticsKeywords (["lat", "method"].map strLower) = 1 :=
  ⟨rfl, rfl, rfl⟩


/-! Claim C9 -/

/-- C9: a successfully imported batch re-imported under the skip-existing
policy is idempotent — the second run also succeeds, commits the first
run's store unchanged (no mutation of the route table, the asset registry
or the event store) and reports zero assets imported, zero assets
auto-created and zero events imported.  The hypothesis that the first run
returned a success result excludes exactly the batches the storage layer
rejects (duplicate identifiers within one batch violating the unique
asset key or the event primary key), on which both runs fail with a
rollback and report no counts at all.  The second run may even use a
different engine state, fitted model and source-file name. -/
theorem C9_skip_existing_idempotent (oracle oracle2 : PredictOracle)
    (ml ml2 : EngineState) (db : DB) (diagRows : List DiagRow)
    (objRows : List ObjRow) (src src2 : String) (s1 : ImportStats)
    (h1 : (importDataFromCsv oracle ml db diagRows (some objRows) src false).result
        = .ok s1) :
    (importDataFromCsv oracle2 ml2
        (importDataFromCsv oracle ml db diagRows (some objRows) src false).db
        diagRows (some objRows) src2 false).db
      = (importDataFromCsv oracle ml db diagRows (some objRows) src false).db ∧
    ∃ s2 : ImportStats,
      (importDataFromCsv oracle2 ml2
          (importDataFromCsv oracle ml db diagRows (some objRows) src false).db
          diagRows (some objRows) src2 false).result = .ok s2 ∧
      s2.objects_imported = 0 ∧ s2.objects_auto_created = 0 ∧
      s2.diagnostics_imported = 0 := by
  cases hemp : objRows.isEmpty with
  | true => simp [importDataFromCsv, hemp] at h1
  | false =>
    have hw1 : importDataFromCsv oracle ml db diagRows (some objRows) src false
        = rollbackOn db (importMain oracle ml db diagRows objRows src false) := by
      simp [importDataFromCsv, hemp]
    have hm1 : (importMain oracle ml db diagRows objRows src false).result
        = .ok s1 := by
      rw [hw1, rollbackOn_result] at h1
      exact h1
    obtain ⟨c1, c2⟩ := importMain_ok_conflicts hm1
    have hrun1 : importDataFromCsv oracle ml db diagRows (some objRows) src false
        = importMain oracle ml db diagRows objRows src false := by
      rw [hw1]
      exact rollbackOn_ok db hm1
    have hdb1 : (importDataFromCsv oracle ml db diagRows (some objRows) src
          false).db
        = importDb5 oracle ml false db diagRows objRows src := by
      rw [hrun1, importMain_no_conflict c1 c2]
    rw [hdb1]
    have hw2 : importDataFromCsv oracle2 ml2
          (importDb5 oracle ml false db diagRows objRows src) diagRows
          (some objRows) src2 false
        = rollbackOn (importDb5 oracle ml false db diagRows objRows src)
            (importMain oracle2 ml2
              (importDb5 oracle ml false db diagRows objRows src) diagRows
              objRows src2 false) := by
      simp [importDataFromCsv, hemp]
    have hc1 := importObjConflict_second_run oracle ml db diagRows objRows src
    have hc2 := importDiagConflict_second_run oracle oracle2 ml ml2 db diagRows
      objRows src src2
    have hmain2 := importMain_no_conflict hc1 hc2
    have hrun2 : importDataFromCsv oracle2 ml2
          (importDb5 oracle ml false db diagRows objRows src) diagRows
          (some objRows) src2 false
        = importMain oracle2 ml2
            (importDb5 oracle ml false db diagRows objRows src) diagRows objRows
            src2 false := by
      rw [hw2]
      apply rollbackOn_ok
      rw [hmain2]
    constructor
    · rw [hrun2, hmain2]
      exact importDb5_second_run oracle oracle2 ml ml2 db diagRows objRows src src2
    · rw [importOp_second_run_nil oracle ml db diagRows objRows src,
        importDiagsLabeled_second_run_nil oracle oracle2 ml ml2 db diagRows
          objRows src src2] at hmain2
      exact ⟨_, by rw [hrun2, hmain2], rfl, rfl, rfl⟩

/-- Witness for C9: a concrete one-asset, one-event batch whose first
skip-existing run succeeds, imported again. -/
theorem C9_skip_existing_idempotent_witness :
    ((importDataFromCsv oracleConstHigh mlUntrained dbEmpty [diagRow1]
        (some [objRow1]) "Diagnostics.csv" false).result
      = .ok { pipelines_imported := 1, objects_imported := 1,
              objects_auto_created := 0, objects_skipped := 0,
              diagnostics_imported := 1, diagnostics_skipped := 0,
              ml_predictions_made := 1, errors := [] }) ∧
    ((importDataFromCsv oracleConstHigh mlTrained
        (importDataFromCsv oracleConstHigh mlUntrained dbEmpty [diagRow1]
          (some [objRow1]) "Diagnostics.csv" false).db
        [diagRow1] (some [objRow1]) "Diagnostics2.csv" false).db
      = (importDataFromCsv oracleConstHigh mlUntrained dbEmpty [diagRow1]
          (some [objRow1]) "Diagnostics.csv" false).db ∧
    ∃ s2 : ImportStats,
      (importDataFromCsv oracleConstHigh mlTrained
          (importDataFromCsv oracleConstHigh mlUntrained dbEmpty [diagRow1]
            (some [objRow1]) "Diagnostics.csv" false).db
          [diagRow1] (some [objRow1]) "Diagnostics2.csv" false).result = .ok s2 ∧
      s2.objects_imported = 0 ∧ s2.objects_auto_created = 0 ∧
      s2.diagnostics_imported = 0) :=
  ⟨rfl,
   C9_skip_existing_idempotent oracleConstHigh oracleConstHigh mlUntrained
     mlTrained dbEmpty [diagRow1] [objRow1] "Diagnostics.csv" "Diagnostics2.csv"
     { pipelines_imported := 1, objects_imported := 1, objects_auto_created := 0,
       objects_skipped := 0, diagnostics_imported := 1, diagnostics_skipped := 0,
       ml_predictions_made := 1, errors := [] } rfl⟩

end IntegrityOS
